import Mathlib

set_option linter.unusedVariables false
set_option maxRecDepth 8192

/-!
Shallow embedding of `src/prospect_interest_form.py`: a three-step Streamlit
wizard that accumulates a Response Record in session state and renders a
one-page PDF summary at the end.

The Controller (the `if st.session_state.step == ...` chain, lines 51-197)
is embedded as an explicit step function on an `AppState`; each button press
becomes an `Event`, and user-visible side effects (warnings, the download
artifact) become an `Effect` list returned beside the successor state.
Python dictionary entries are `Option Val` fields: `Option.none` models an
absent key, `some Val.none` models a key whose stored value is Python `None`.
-/

/-- A Python value as stored in `st.session_state.responses`: `None`, a
string, an integer, or a boolean. -/
inductive Val where
  | none
  | str (s : String)
  | int (n : Int)
  | bool (b : Bool)
deriving DecidableEq, Repr

/-- How a `Val` is rendered inside a Python f-string (`str(v)`). -/
def pyStr : Val → String
  | .none => "None"
  | .str s => s
  | .int n => toString n
  | .bool b => if b then "True" else "False"

/-- Python truthiness of a stored value (`bool(v)`): `None`, the empty
string, `0` and `False` are falsy. -/
def truthy : Val → Bool
  | .none => false
  | .str s => !(s = "")
  | .int n => !(n = 0)
  | .bool b => b

/-- Embedding of `resp.get(key) or default` followed by f-string formatting:
an absent key yields Python `None` (falsy), a falsy stored value falls back
to the default string, otherwise the value is formatted. -/
def getOr (o : Option Val) (d : String) : String :=
  match o with
  | Option.none => d
  | some v => if truthy v then pyStr v else d

/-- The characters removed by Python `str.strip()`: exactly the code
points for which CPython `str.isspace()` is true — the ASCII whitespace
and separator controls (U+0009-U+000D, U+001C-U+001F, U+0020), NEL
(U+0085), NBSP (U+00A0), Ogham space mark (U+1680), the U+2000-U+200A
spaces, line/paragraph separators (U+2028, U+2029), narrow no-break space
(U+202F), medium mathematical space (U+205F) and ideographic space
(U+3000). -/
def isPySpace (c : Char) : Bool :=
  let n := c.toNat
  n == 0x20 || (0x9 ≤ n && n ≤ 0xd) || (0x1c ≤ n && n ≤ 0x1f) ||
  n == 0x85 || n == 0xa0 || n == 0x1680 ||
  (0x2000 ≤ n && n ≤ 0x200a) ||
  n == 0x2028 || n == 0x2029 || n == 0x202f || n == 0x205f || n == 0x3000

/-- Drop the leading run of whitespace characters from a character list. -/
def dropWhileSpace : List Char → List Char
  | [] => []
  | c :: cs => if isPySpace c then dropWhileSpace cs else c :: cs

/-- Embedding of Python `s.strip()`: remove leading and trailing whitespace. -/
def pyStrip (s : String) : String :=
  ⟨(dropWhileSpace (dropWhileSpace s.data).reverse).reverse⟩

/-- The Response Record (`st.session_state.responses`), a dictionary with at
most these eight keys. `Option.none` = key absent; `some Val.none` = key
present holding Python `None`. -/
structure Responses where
  situation : Option Val := Option.none
  timeline : Option Val := Option.none
  complexity : Option Val := Option.none
  main_concern : Option Val := Option.none
  contact_pref : Option Val := Option.none
  email : Option Val := Option.none
  phone : Option Val := Option.none
  interest_confirm : Option Val := Option.none
deriving DecidableEq, Repr

/-- The empty dictionary `{}` installed at session start (line 49). -/
def emptyResponses : Responses := {}

/-- The whole mutable session state: the step indicator (line 47) and the
Response Record (line 49). -/
structure AppState where
  step : Nat
  responses : Responses
deriving DecidableEq, Repr

/-- The initial session state (lines 46-49): step 1, empty record. -/
def initState : AppState := ⟨1, emptyResponses⟩

/-- Ambient authority available to the process: the system clock, read at
line 168 as `date.today().strftime("%B %d, %Y")`. The field holds that
already-formatted date string. -/
structure Env where
  todayFormatted : String
deriving DecidableEq, Repr

/-- One user action (button press) handled by the script. -/
inductive Event where
  | step1Submit (situation timeline : String) (complexity : Int)
  | step2Back
  | step2Submit (main_concern contact_pref email phone : String)
      (interest_confirm : Bool)
  | generate
  | startOver
deriving DecidableEq, Repr

/-- A user-visible side effect of handling an event. -/
inductive Effect where
  | warning (msg : String)
  | success (msg : String)
  | download (fname : String) (bytes : List Nat)
  | info (msg : String)
  | encodingError
deriving DecidableEq, Repr

/-- Modelled from the spec: the FPDF library is an external dependency, not
code under `src/`. Per spec section 4.2 the Renderer lays the drawn texts
out on one page; the model records the texts handed to `cell` /
`multi_cell` in draw order. -/
structure FPDF where
  pageTexts : List String := []
deriving DecidableEq, Repr

/-- Modelled from the spec: `pdf.cell(0, 10, txt, ...)` draws one line of
text on the page. -/
def FPDF.cell (pdf : FPDF) (txt : String) : FPDF :=
  { pdf with pageTexts := pdf.pageTexts ++ [txt] }

/-- Modelled from the spec: `pdf.multi_cell(0, 8, txt)` draws a multi-line
text block on the page. -/
def FPDF.multi_cell (pdf : FPDF) (txt : String) : FPDF :=
  { pdf with pageTexts := pdf.pageTexts ++ [txt] }

/-- Modelled from the spec: `pdf.output(dest='S')` serialises the document
to a string. The model embeds each drawn text, in order, inside an ASCII
structural skeleton. -/
def FPDF.output (pdf : FPDF) : String :=
  "%PDF-1.3\n" ++ String.join (pdf.pageTexts.map (fun t => t ++ "\n")) ++ "%%EOF\n"

/-- Whether a character is inside the Latin-1 range (code point below 256). -/
def latin1Char (c : Char) : Bool := c.toNat < 256

/-- Embedding of Python `s.encode('latin-1')` (line 29): the byte sequence
when every character fits in Latin-1, and failure (`UnicodeEncodeError`)
otherwise. -/
def encodeLatin1 (s : String) : Option (List Nat) :=
  if s.data.all latin1Char then some (s.data.map Char.toNat) else Option.none

/-- The body text handed to `multi_cell` (lines 14-26), with `today` and
`summary_text` interpolated exactly as the f-string does. -/
def bodyText (summary_text today : String) : String :=
  "\nDate: " ++ today ++
  "\n\nThis is a preliminary summary from the initial interest form.\n\nSummary of responses:\n" ++
  summary_text ++
  "\n\nNote: This is not a formal engagement or signed document.\nNo sensitive or identifying information was collected.\n\nNext steps will be discussed after review.\n"

/-- Embedding of `create_summary_pdf` (lines 6-32). The `env` parameter
models the ambient environment (the system clock) that the Python process
could read; the function body never consults it — the date is the `today`
argument, computed by the caller at line 168. The result is the Latin-1
byte sequence, or failure when some character does not fit (line 29). -/
def create_summary_pdf (env : Env) (summary_text today : String) :
    Option (List Nat) :=
  let pdf : FPDF := {}
  let pdf := pdf.cell "Prospective Client Interest Summary"
  let pdf := pdf.multi_cell (bodyText summary_text today)
  encodeLatin1 pdf.output

/-- The `summary_lines` list built by the step-3 generate handler
(lines 171-179). -/
def summary_lines (r : Responses) : List String :=
  [ "Reason for reaching out: " ++ pyStr (r.situation.getD Val.none),
    "Timeline: " ++ pyStr (r.timeline.getD Val.none),
    "Complexity level: " ++ pyStr (r.complexity.getD Val.none) ++ "/5",
    "Main concern: " ++ getOr r.main_concern "None provided",
    "Preferred contact: " ++ pyStr (r.contact_pref.getD Val.none),
    "Email: " ++ getOr r.email "Not provided",
    "Phone: " ++ getOr r.phone "Not provided" ]

/-- `summary_text = "\n".join(summary_lines)` (line 180). -/
def summary_text (r : Responses) : String :=
  String.intercalate "\n" (summary_lines r)

/-- The effects of the step-3 generate handler (lines 170-192): render the
PDF and expose it for download; an encoding failure propagates as a visible
error instead. -/
def generateEffects (env : Env) (r : Responses) : List Effect :=
  let today_str := env.todayFormatted
  match create_summary_pdf env (summary_text r) today_str with
  | some bytes =>
      [ .success "Summary PDF created!",
        .download ("CPA_Interest_Summary_" ++ today_str ++ ".pdf") bytes,
        .info "Thank you! This summary will help me prepare for a productive conversation." ]
  | Option.none => [.encodingError]

/-- The Controller: one full script run handling one event, mirroring the
`if/elif` chain on `st.session_state.step` (lines 51-197). Events whose
buttons are not rendered at the current step leave the state unchanged.
The `.startOver` case is a state no-op because the source nests the Start
Over handler (line 194) inside the Generate-button branch (line 170): a
Streamlit button returns `True` only on the rerun its own click triggers,
so on the rerun caused by clicking Start Over the Generate button is
`False`, the branch is skipped, and the delete loop (lines 195-196) never
executes — the click is discarded and no session state is cleared. -/
def stepFn (env : Env) (s : AppState) (e : Event) : AppState × List Effect :=
  if s.step = 1 then
    match e with
    | .step1Submit situation timeline complexity =>
        (⟨2, { s.responses with
                situation := some (.str situation),
                timeline := some (.str timeline),
                complexity := some (.int complexity) }⟩, [])
    | _ => (s, [])
  else if s.step = 2 then
    match e with
    | .step2Back => (⟨1, s.responses⟩, [])
    | .step2Submit main_concern contact_pref email phone interest_confirm =>
        if !interest_confirm then
          (s, [.warning "Please confirm interest to continue."])
        else
          (⟨3, { s.responses with
                  main_concern := some (.str main_concern),
                  contact_pref := some (.str contact_pref),
                  email := some (if !(pyStrip email = "") then .str (pyStrip email) else .none),
                  phone := some (if !(pyStrip phone = "") then .str (pyStrip phone) else .none),
                  interest_confirm := some (.bool interest_confirm) }⟩, [])
    | _ => (s, [])
  else if s.step = 3 then
    match e with
    | .generate => (s, generateEffects env s.responses)
    | .startOver => (s, [])
    | _ => (s, [])
  else (s, [])

/-- Run a sequence of events from a state. -/
def run (env : Env) (s : AppState) (evs : List Event) : AppState :=
  evs.foldl (fun s e => (stepFn env s e).1) s

/-- The states a session can be in: the initial state and everything the
Controller can step to from a reachable state, under any environment. -/
inductive Reachable : AppState → Prop where
  | init : Reachable initState
  | next (s : AppState) (env : Env) (e : Event) :
      Reachable s → Reachable (stepFn env s e).1

/-- The six `situation` selectbox options (lines 57-64). -/
def situations : List String :=
  [ "Looking for help with personal or family taxes",
    "Need guidance on business or self-employment taxes",
    "Exploring tax planning or year-end strategies",
    "Dealing with a recent life event that may affect taxes (for myself or a family member)",
    "Other / just exploring CPA services",
    "Not sure yet – want to discuss options" ]

/-- The four `timeline` radio options (lines 69-72). -/
def timelines : List String :=
  [ "Immediately / within the next 30 days",
    "Within the next 3–6 months",
    "No firm timeline yet – gathering information",
    "Just researching for future reference" ]

/-- Whether the pattern list occurs at the head of the list. -/
def startsWithL : List Char → List Char → Bool
  | _, [] => true
  | [], _ :: _ => false
  | c :: cs, p :: ps => c == p && startsWithL cs ps

/-- Whether the pattern list occurs contiguously anywhere in the list. -/
def containsL : List Char → List Char → Bool
  | [], pat => pat.isEmpty
  | c :: cs, pat => startsWithL (c :: cs) pat || containsL cs pat

/-- Whether `pat` occurs as a contiguous substring of `s`. -/
def containsSubstrB (s pat : String) : Bool :=
  containsL s.data pat.data

/-- All eight fields of the data model carry a value (the key is present). -/
def recordComplete (r : Responses) : Prop :=
  r.situation.isSome = true ∧ r.timeline.isSome = true ∧
  r.complexity.isSome = true ∧ r.main_concern.isSome = true ∧
  r.contact_pref.isSome = true ∧ r.email.isSome = true ∧
  r.phone.isSome = true ∧ r.interest_confirm.isSome = true

/-- The state after the step-1 submit handler (lines 84-91) runs on a
step-1 state. -/
def afterStep1 (env : Env) (r : Responses) (sit tl : String) (c : Int) :
    AppState :=
  (stepFn env ⟨1, r⟩ (.step1Submit sit tl c)).1

/-- The state after the step-2 submit handler (lines 132-144) runs on a
step-2 state. -/
def afterStep2 (env : Env) (r : Responses) (mc cp em ph : String)
    (ic : Bool) : AppState :=
  (stepFn env ⟨2, r⟩ (.step2Submit mc cp em ph ic)).1

/-- A fixed environment for concrete runs. -/
def env0 : Env := ⟨"October 12, 2026"⟩

/-- The two submissions of the end-to-end scenario of spec section 8. -/
def scenarioEvents : List Event :=
  [ .step1Submit "Looking for help with personal or family taxes"
      "Immediately / within the next 30 days" 4,
    .step2Submit "" "Email" "  " "555-1234" true ]

/-- The session state after running the end-to-end scenario from a fresh
session. -/
def scenarioFinal : AppState := run env0 initState scenarioEvents

/-- A concrete step-3 state: submit step 1, then submit step 2 with the
confirmation checked. -/
def step3State : AppState :=
  (stepFn env0
    (stepFn env0 initState
      (.step1Submit "Other / just exploring CPA services"
        "Just researching for future reference" 3)).1
    (.step2Submit "costs" "Email" "a@example.com" "" true)).1

/-- The Controller invariant: the step indicator is 1, 2 or 3; once past
step 1 the step-1 fields are present; at step 3 the record is complete and
the confirmation flag was stored as `True`; and the confirmation key, when
present at all, holds `True`. -/
def CtrlInv (s : AppState) : Prop :=
  (s.step = 1 ∨ s.step = 2 ∨ s.step = 3) ∧
  ((s.step = 2 ∨ s.step = 3) →
    s.responses.situation.isSome = true ∧ s.responses.timeline.isSome = true ∧
    s.responses.complexity.isSome = true) ∧
  (s.step = 3 →
    recordComplete s.responses ∧
    s.responses.interest_confirm = some (.bool true)) ∧
  (s.responses.interest_confirm = Option.none ∨
    s.responses.interest_confirm = some (.bool true))

theorem dropWhileSpace_eq_nil (l : List Char) :
    dropWhileSpace l = [] ↔ l.all isPySpace = true := by
  induction l with
  | nil => simp [dropWhileSpace]
  | cons c cs ih =>
    by_cases h : isPySpace c
    · simp [dropWhileSpace, h, ih]
    · simp [dropWhileSpace, h]

theorem all_dropWhileSpace (l : List Char) :
    (dropWhileSpace l).all isPySpace = l.all isPySpace := by
  induction l with
  | nil => rfl
  | cons c cs ih =>
    by_cases h : isPySpace c
    · simp [dropWhileSpace, h, ih]
    · simp [dropWhileSpace, h]

/-- Python `s.strip()` is empty exactly when `s` is empty or consists only
of whitespace characters. -/
theorem pyStrip_eq_empty_iff (s : String) :
    pyStrip s = "" ↔ s.data.all isPySpace = true := by
  have h0 : (pyStrip s = "") ↔
      ((dropWhileSpace (dropWhileSpace s.data).reverse).reverse
        = ([] : List Char)) := by
    rw [String.ext_iff]
    exact Iff.rfl
  rw [h0, List.reverse_eq_nil_iff, dropWhileSpace_eq_nil, List.all_reverse,
    all_dropWhileSpace]

/-- The stored contact value (lines 139-140) in the claim's vocabulary:
absent for blank or whitespace-only input, the stripped string otherwise. -/
theorem stored_contact_eq (x : String) :
    (if !(pyStrip x = "") then Val.str (pyStrip x) else Val.none) =
      (if x.data.all isPySpace then Val.none else Val.str (pyStrip x)) := by
  by_cases h : pyStrip x = ""
  · have h2 : x.data.all isPySpace = true := (pyStrip_eq_empty_iff x).mp h
    simp [h, h2]
  · have h2 : ¬ x.data.all isPySpace = true :=
      fun hh => h ((pyStrip_eq_empty_iff x).mpr hh)
    simp [h, h2]

/-- C1: submitting step 2 with the confirmation unchecked, whatever the
other field values, leaves the step indicator at 2 and the Response Record
untouched, and surfaces the warning (lines 132-134). -/
theorem step2_submit_unconfirmed_no_transition (env : Env) (r : Responses)
    (mc cp em ph : String) :
    stepFn env ⟨2, r⟩ (.step2Submit mc cp em ph false) =
      (⟨2, r⟩, [.warning "Please confirm interest to continue."]) := rfl

/-- C2: submitting step 2 with the confirmation checked stores the email
and phone fields as Python `None` when the input is empty or
whitespace-only, and as the stripped non-empty string otherwise
(lines 139-140). -/
theorem step2_submit_normalizes_blank_contact (env : Env) (r : Responses)
    (mc cp em ph : String) :
    (afterStep2 env r mc cp em ph true).responses.email =
      some (if em.data.all isPySpace then Val.none
            else Val.str (pyStrip em)) ∧
    (afterStep2 env r mc cp em ph true).responses.phone =
      some (if ph.data.all isPySpace then Val.none
            else Val.str (pyStrip ph)) := by
  constructor
  · show some (if !(pyStrip em = "") then Val.str (pyStrip em) else Val.none)
        = _
    rw [stored_contact_eq]
  · show some (if !(pyStrip ph = "") then Val.str (pyStrip ph) else Val.none)
        = _
    rw [stored_contact_eq]

/-- C4: the renderer is deterministic — it never reads the ambient
environment (in particular not the clock); the date is the caller-supplied
`today` argument, so identical arguments give byte-identical output. -/
theorem create_summary_pdf_deterministic (e1 e2 : Env)
    (summary today : String) :
    create_summary_pdf e1 summary today =
      create_summary_pdf e2 summary today := rfl

/-- C7: the Generate action at step 3 changes no Controller state — the
step indicator stays 3 and the Response Record is untouched; the handler
only invokes the renderer and exposes the bytes (lines 170-192). -/
theorem generate_preserves_state (env : Env) (r : Responses) :
    stepFn env ⟨3, r⟩ .generate =
      (⟨3, r⟩, generateEffects env r) := rfl

/-- C9: evaluating the code at the failing input — the step-3 state
reached by the end-to-end scenario, followed by a Start Over click. The
delete loop (lines 195-196) sits inside the Generate-button branch
(line 170), which is `False` on the rerun the Start Over click triggers,
so the click is discarded: no session state is cleared, the step indicator
stays 3 and the previous answers survive, contrary to the claimed full
reset to the default-valued step-1 view. -/
theorem start_over_click_discarded :
    stepFn env0 scenarioFinal .startOver = (scenarioFinal, []) ∧
      scenarioFinal ≠ initState := by decide

/-- One Controller step preserves the invariant. -/
theorem ctrlInv_step (env : Env) (s : AppState) (e : Event)
    (h : CtrlInv s) : CtrlInv (stepFn env s e).1 := by
  obtain ⟨st, r⟩ := s
  obtain ⟨hdom, h12, h3, hic⟩ := h
  rcases hdom with h1 | h2 | h3'
  · subst h1
    cases e <;> simp_all [stepFn, CtrlInv, recordComplete]
  · subst h2
    cases e with
    | step2Submit mc cp em ph ic =>
      cases ic with
      | false => exact ⟨Or.inr (Or.inl rfl), h12, h3, hic⟩
      | true =>
        have hf := h12 (Or.inl rfl)
        simp_all [stepFn, CtrlInv, recordComplete]
    | step1Submit sit tl c => exact ⟨Or.inr (Or.inl rfl), h12, h3, hic⟩
    | step2Back =>
      refine ⟨Or.inl rfl, ?_, ?_, hic⟩ <;> intro hh <;>
        simp_all [stepFn, CtrlInv]
    | generate => exact ⟨Or.inr (Or.inl rfl), h12, h3, hic⟩
    | startOver => exact ⟨Or.inr (Or.inl rfl), h12, h3, hic⟩
  · subst h3'
    cases e with
    | startOver => exact ⟨Or.inr (Or.inr rfl), h12, h3, hic⟩
    | step1Submit sit tl c => exact ⟨Or.inr (Or.inr rfl), h12, h3, hic⟩
    | step2Back => exact ⟨Or.inr (Or.inr rfl), h12, h3, hic⟩
    | step2Submit mc cp em ph ic =>
      exact ⟨Or.inr (Or.inr rfl), h12, h3, hic⟩
    | generate => exact ⟨Or.inr (Or.inr rfl), h12, h3, hic⟩

/-- Every reachable session state satisfies the Controller invariant. -/
theorem reachable_ctrlInv (s : AppState) (h : Reachable s) : CtrlInv s := by
  induction h with
  | init =>
    refine ⟨Or.inl rfl, fun hh => ?_, fun hh => ?_, Or.inl rfl⟩
    · rcases hh with hh | hh <;> exact absurd hh (by decide)
    · exact absurd hh (by decide)
  | next s env e hs ih => exact ctrlInv_step env s e ih

/-- C3: in every reachable state the step indicator is 3 only with a fully
populated Response Record — both submit handlers have run — and with the
confirmation flag stored as `True` (the guard at line 133 admitted it). -/
theorem step3_only_with_complete_record (s : AppState) (h : Reachable s)
    (h3 : s.step = 3) :
    recordComplete s.responses ∧
      s.responses.interest_confirm = some (.bool true) :=
  (reachable_ctrlInv s h).2.2.1 h3

/-- C3 witness: a concrete two-submission run reaches step 3 with a
complete record. -/
theorem step3_only_with_complete_record_wit :
    step3State.step = 3 ∧ recordComplete step3State.responses :=
  ⟨rfl,
    (step3_only_with_complete_record step3State
      (Reachable.next _ env0 _ (Reachable.next _ env0 _ Reachable.init))
      rfl).1⟩

/-- C10: in every reachable state, if the `interest_confirm` key is present
in the Response Record at all, its stored value is `True`: the only write
of that key (line 141) sits behind the line-133 guard. -/
theorem interest_confirm_key_implies_true (s : AppState) (h : Reachable s)
    (v : Val) (hv : s.responses.interest_confirm = some v) :
    v = .bool true := by
  rcases (reachable_ctrlInv s h).2.2.2 with hn | ht
  · rw [hn] at hv; cases hv
  · rw [ht] at hv
    injection hv with hv2
    exact hv2.symm

/-- C10 witness: the concrete step-3 run stores `interest_confirm = True`,
and the theorem applies to it. -/
theorem interest_confirm_key_implies_true_wit :
    step3State.responses.interest_confirm = some (Val.bool true) ∧
      Val.bool true = Val.bool true :=
  ⟨by decide,
    interest_confirm_key_implies_true step3State
      (Reachable.next _ env0 _ (Reachable.next _ env0 _ Reachable.init))
      (Val.bool true) (by decide)⟩

/-- C6: a valid step-1 submission (an enumerated situation and timeline,
complexity in 1..5) moves the Controller to step 2 with the three values
copied into the record (lines 84-91), and neither the Back action nor the
step-2 submit — which writes only step-2 fields (lines 136-142) — changes
them afterwards. -/
theorem step1_values_persist (env : Env) (r : Responses)
    (sit tl : String) (c : Int)
    (hsit : sit ∈ situations) (htl : tl ∈ timelines)
    (hc1 : 1 ≤ c) (hc5 : c ≤ 5) :
    (afterStep1 env r sit tl c).step = 2 ∧
    (afterStep1 env r sit tl c).responses.situation = some (.str sit) ∧
    (afterStep1 env r sit tl c).responses.timeline = some (.str tl) ∧
    (afterStep1 env r sit tl c).responses.complexity = some (.int c) ∧
    (∀ env2, (stepFn env2 (afterStep1 env r sit tl c) .step2Back).1.responses
      = (afterStep1 env r sit tl c).responses) ∧
    (∀ env2 mc cp em ph ic,
      (afterStep2 env2 (afterStep1 env r sit tl c).responses mc cp em ph
          ic).responses.situation = some (.str sit) ∧
      (afterStep2 env2 (afterStep1 env r sit tl c).responses mc cp em ph
          ic).responses.timeline = some (.str tl) ∧
      (afterStep2 env2 (afterStep1 env r sit tl c).responses mc cp em ph
          ic).responses.complexity = some (.int c)) := by
  refine ⟨rfl, rfl, rfl, rfl, fun env2 => rfl,
    fun env2 mc cp em ph ic => ?_⟩
  cases ic <;> exact ⟨rfl, rfl, rfl⟩

/-- C6 witness: a concrete valid submission — the first situation option,
the first timeline option, complexity 3. -/
theorem step1_values_persist_wit :
    ("Looking for help with personal or family taxes" ∈ situations) ∧
    ("Immediately / within the next 30 days" ∈ timelines) ∧
    (1 : Int) ≤ 3 ∧ (3 : Int) ≤ 5 ∧
    (afterStep1 env0 emptyResponses
      "Looking for help with personal or family taxes"
      "Immediately / within the next 30 days" 3).step = 2 :=
  ⟨by decide, by decide, by decide, by decide,
    (step1_values_persist env0 emptyResponses
      "Looking for help with personal or family taxes"
      "Immediately / within the next 30 days" 3
      (by decide) (by decide) (by decide) (by decide)).1⟩

/-- C8 counterexample: in the end-to-end scenario the `main_concern` key is
stored as the empty string — the step-2 handler copies it verbatim
(line 137) — so it is neither absent nor Python `None`, contrary to the
claim. -/
theorem scenario_main_concern_present_not_none :
    scenarioFinal.responses.main_concern = some (Val.str "") ∧
    scenarioFinal.responses.main_concern ≠ some Val.none ∧
    scenarioFinal.responses.main_concern ≠ Option.none := by decide

/-- C8 (amended): the end-to-end scenario ends at step 3 with
`main_concern` stored as the empty string (rendered as "None provided"),
`email` stored as `None`, `phone` stored as "555-1234"; the summary text
contains "Complexity level: 4/5" and "Phone: 555-1234" and does not contain
"Email:  " followed by raw whitespace. -/
theorem scenario_end_to_end :
    scenarioFinal.step = 3 ∧
    scenarioFinal.responses.main_concern = some (Val.str "") ∧
    scenarioFinal.responses.email = some Val.none ∧
    scenarioFinal.responses.phone = some (Val.str "555-1234") ∧
    containsSubstrB (summary_text scenarioFinal.responses)
      "Main concern: None provided" = true ∧
    containsSubstrB (summary_text scenarioFinal.responses)
      "Complexity level: 4/5" = true ∧
    containsSubstrB (summary_text scenarioFinal.responses)
      "Phone: 555-1234" = true ∧
    containsSubstrB (summary_text scenarioFinal.responses)
      "Email:  " = false := by decide

theorem encodeLatin1_eq_none_iff (s : String) :
    encodeLatin1 s = Option.none ↔ s.data.all latin1Char = false := by
  unfold encodeLatin1
  by_cases h : s.data.all latin1Char <;> simp [h]

theorem create_summary_pdf_encoding_iff (env : Env) (s t : String) :
    create_summary_pdf env s t = Option.none ↔
      ∃ c ∈ s.data ++ t.data, 256 ≤ c.toNat := by
  have hdoc : create_summary_pdf env s t =
      encodeLatin1 ("%PDF-1.3\n" ++
        ((("" ++ ("Prospective Client Interest Summary" ++ "\n")) ++
          (bodyText s t ++ "\n")) ++ "%%EOF\n")) := rfl
  rw [hdoc, encodeLatin1_eq_none_iff]
  simp only [bodyText, String.data_append, List.all_append]
  have e1 : ("%PDF-1.3\n").data.all latin1Char = true := by decide
  have e2 : ("" : String).data.all latin1Char = true := by decide
  have e3 : ("Prospective Client Interest Summary").data.all latin1Char
      = true := by decide
  have e4 : ("\n").data.all latin1Char = true := by decide
  have e5 : ("%%EOF\n").data.all latin1Char = true := by decide
  have e6 : ("\nDate: ").data.all latin1Char = true := by decide
  have e7 : ("\n\nThis is a preliminary summary from the initial interest form.\n\nSummary of responses:\n").data.all latin1Char = true := by decide
  have e8 : ("\n\nNote: This is not a formal engagement or signed document.\nNo sensitive or identifying information was collected.\n\nNext steps will be discussed after review.\n").data.all latin1Char = true := by decide
  rw [e1, e2, e3, e4, e5, e6, e7, e8]
  simp only [Bool.true_and, Bool.and_true]
  rw [Bool.and_eq_false_iff]
  simp only [List.all_eq_false, List.mem_append]
  constructor
  · rintro (⟨c, hc, hlt⟩ | ⟨c, hc, hlt⟩)
    · exact ⟨c, Or.inr hc, by simpa [latin1Char, Nat.not_lt] using hlt⟩
    · exact ⟨c, Or.inl hc, by simpa [latin1Char, Nat.not_lt] using hlt⟩
  · rintro ⟨c, hc | hc, hge⟩
    · exact Or.inr ⟨c, hc, by simpa [latin1Char, Nat.not_lt] using hge⟩
    · exact Or.inl ⟨c, hc, by simpa [latin1Char, Nat.not_lt] using hge⟩
